import Mathlib

/-!
Verification of the GRUB2 multiboot USB creator (main.py) against its
natural-language specification.  The Python program is shallowly embedded:
pure decision logic becomes Lean functions, the process environment
(partition nodes, blkid labels, mounted state, user answers) is passed in
explicitly, and process termination via sys.exit(n) is modelled as
Except Nat with the exit status as the error value.
-/

/-! ## Python string primitives

The program manipulates file and device names with Python str methods.
These are modelled structurally over the character data so that concrete
instances evaluate inside the kernel.
-/

/-- Model of Python str.lower, applied characterwise (ASCII case folding,
which is what the file names handled by the program use). -/
def pyLower (s : String) : String :=
  String.mk (s.data.map Char.toLower)

/-- Model of Python str.strip with no argument: remove whitespace from both
ends of the string. -/
def pyStrip (s : String) : String :=
  String.mk (((s.data.dropWhile Char.isWhitespace).reverse.dropWhile Char.isWhitespace).reverse)

/-- Substring test on character lists: does the contiguous list `pat` occur
inside `s`?  Models the Python `pat in s` operator. -/
def strContainsAux (pat : List Char) : List Char → Bool
  | [] => pat.isEmpty
  | c :: rest => pat.isPrefixOf (c :: rest) || strContainsAux pat rest

/-- Model of the Python membership test `sub in s` on strings. -/
def strContains (s sub : String) : Bool :=
  strContainsAux sub.data s.data

/-- Fuel-driven worker for `pyReplace`; the fuel is an upper bound on the
number of characters still to be examined, so structural recursion on the
fuel suffices. -/
def pyReplaceAux (pat rep : List Char) : Nat → List Char → List Char
  | _, [] => []
  | 0, s => s
  | fuel + 1, c :: rest =>
    if pat.isPrefixOf (c :: rest) then
      rep ++ pyReplaceAux pat rep fuel ((c :: rest).drop pat.length)
    else
      c :: pyReplaceAux pat rep fuel rest

/-- Model of Python str.replace for a non-empty pattern: replace every
non-overlapping occurrence of `pat` by `rep`, scanning left to right. -/
def pyReplace (s pat rep : String) : String :=
  String.mk (pyReplaceAux pat.data rep.data s.data.length s.data)

/-- Last character of a device identifier, `device[-1]` in Python; `none`
for the empty string (where Python would raise IndexError). -/
def lastCharOf (s : String) : Option Char :=
  s.data.getLast?

/-- The test `device[-1].isdigit()` used by both classes for a non-empty
device identifier (false on the empty string, which the program never
constructs). -/
def endsInDigit (device : String) : Bool :=
  match lastCharOf device with
  | some c => c.isDigit
  | none => false

/-! ## DeviceProbe: USBFormatter.device_has_layout

The probe consults the filesystem (partition node existence) and blkid
(partition labels, empty string when the label cannot be read).  That
environment is captured in a structure.
-/

/-- Environment seen by `USBFormatter.device_has_layout`: whether the two
expected partition nodes exist, and the blkid LABEL values of each (the
empty string when blkid yields nothing). -/
structure ProbeEnv where
  bootPartExists : Bool
  isoPartExists : Bool
  bootLabel : String
  isoLabel : String

/-- Embedding of `USBFormatter.device_has_layout`: returns False when either
partition node is missing; otherwise returns True when the labels match
("BOOT", "ISOs"), and True again via the fallback heuristic otherwise. -/
def device_has_layout (env : ProbeEnv) : Bool :=
  if !env.bootPartExists || !env.isoPartExists then false
  else if env.bootLabel == "BOOT" && env.isoLabel == "ISOs" then true
  else true

/-- Label inspection concluded with both expected labels. -/
def labelsExpected (env : ProbeEnv) : Bool :=
  env.bootLabel == "BOOT" && env.isoLabel == "ISOs"

/-! ## ModeResolver: the mode-resolution block of main

main resolves the operating mode from the --mode preference, the probe
result, the --auto-confirm flag and (in the interactive branch) the
answer typed by the user.  The returned pair records the resolved mode and
whether an interactive prompt was issued.
-/

/-- Embedding of the mode-resolution block of `main` (the `if mode == "auto"`
cascade).  Arguments: the `--mode` preference, the probe result, the
`--auto-confirm` flag, and the raw interactive answer (only consulted in the
interactive branch).  Returns the resolved mode together with a flag that
is true exactly when the interactive prompt was issued. -/
def resolveMode (pref : String) (already autoConfirm : Bool) (ans : String) : String × Bool :=
  if pref == "auto" then
    if already then
      if autoConfirm then ("update", false)
      else if pyLower (pyStrip ans) == "w" then ("wipe", true)
      else ("update", true)
    else ("wipe", false)
  else (pref, false)

/-! ## Partition naming in USBFormatter and GRUBInstaller -/

/-- Embedding of the partition-name computation in `USBFormatter.__init__`:
the pair (boot_partition, iso_partition). -/
def formatterPartitions (device : String) : String × String :=
  if endsInDigit device then (device ++ "p1", device ++ "p2")
  else (device ++ "1", device ++ "2")

/-- Embedding of the identical partition-name computation in
`GRUBInstaller.__init__`: the pair (boot_partition, iso_partition). -/
def installerPartitions (device : String) : String × String :=
  if endsInDigit device then (device ++ "p1", device ++ "p2")
  else (device ++ "1", device ++ "2")

/-! ## USBFormatter.confirm_wipe and the wipe-mode path -/

/-- Embedding of `USBFormatter.confirm_wipe`.  `devices` is the list of
device names reported by list_disks (sizes are used only for display and
are omitted), `device` the selected device and `response` the raw answer to
the confirmation prompt.  `Except.error n` models `sys.exit(n)`. -/
def confirm_wipe (devices : List String) (device : String) (response : String) :
    Except Nat Unit :=
  if devices.contains device then
    if pyLower (pyStrip response) == "yes" then Except.ok ()
    else Except.error 0
  else Except.error 1

/-- Mutating steps of the wipe branch of `main`, in program order. -/
inductive WipeStep where
  | wipeDevice
  | createPartitions
  | formatPartitions
  | mountParts
  | installGrub
  | syncStep
  | writeCfg
deriving DecidableEq

/-- Embedding of the wipe branch of `main`: the confirmation gate (skipped
under --auto-confirm) followed by the mutating steps.  The result is the
list of mutating steps reached together with the final outcome
(`Except.error n` models termination via `sys.exit(n)`); the mutating steps
themselves are treated as succeeding, which is all the confirmation claims
need. -/
def wipeModePath (autoConfirm : Bool) (devices : List String) (device response : String) :
    List WipeStep × Except Nat Unit :=
  match (if autoConfirm then Except.ok () else confirm_wipe devices device response) with
  | Except.error n => ([], Except.error n)
  | Except.ok _ =>
    ([WipeStep.wipeDevice, WipeStep.createPartitions, WipeStep.formatPartitions,
      WipeStep.mountParts, WipeStep.installGrub, WipeStep.syncStep, WipeStep.writeCfg],
     Except.ok ())

/-! ## Theorems: DeviceProbe, ModeResolver, confirm_wipe, partition naming -/

/-- C1: device_has_layout reports Provisioned (true) iff both expected
partition nodes exist and (label inspection concluded with both expected
labels, or it did not conclude so but both partitions exist); in
particular, whenever both partition nodes exist the result is Provisioned
regardless of the label values read. -/
theorem device_has_layout_provisioned_iff (env : ProbeEnv) :
    (device_has_layout env = true ↔
      (env.bootPartExists = true ∧ env.isoPartExists = true ∧
        (labelsExpected env = true ∨
          (labelsExpected env = false ∧ env.bootPartExists = true ∧ env.isoPartExists = true)))) ∧
    (env.bootPartExists = true → env.isoPartExists = true → device_has_layout env = true) := by
  obtain ⟨b, i, bl, il⟩ := env
  constructor
  · cases b <;> cases i <;>
      by_cases h : (bl == "BOOT" && il == "ISOs") = true <;>
      simp [device_has_layout, labelsExpected, h]
  · intro hb hi
    cases b <;> cases i <;> simp_all [device_has_layout]

/-- Witness for C1 at a concrete environment: both partitions exist but the
labels read as something unexpected, and the probe still reports
Provisioned. -/
theorem device_has_layout_provisioned_iff_witness :
    device_has_layout ⟨true, true, "FOO", "BAR"⟩ = true :=
  (device_has_layout_provisioned_iff ⟨true, true, "FOO", "BAR"⟩).2 rfl rfl

/-- C2: an explicit wipe or update preference is returned verbatim for every
detected state with no prompt; auto on a fresh device yields wipe; auto on a
provisioned device with --auto-confirm yields update with no prompt. -/
theorem resolveMode_contract (pref : String) (already autoConfirm : Bool) (ans : String) :
    (pref = "wipe" ∨ pref = "update" → resolveMode pref already autoConfirm ans = (pref, false)) ∧
    resolveMode "auto" false autoConfirm ans = ("wipe", false) ∧
    resolveMode "auto" true true ans = ("update", false) := by
  refine ⟨?_, by simp [resolveMode], by simp [resolveMode]⟩
  rintro (rfl | rfl) <;> simp [resolveMode]

/-- Witness for C2: an explicit wipe preference on a provisioned device is
returned verbatim without a prompt. -/
theorem resolveMode_contract_witness :
    resolveMode "wipe" true false "zzz" = ("wipe", false) :=
  (resolveMode_contract "wipe" true false "zzz").1 (Or.inl rfl)

/-- C9: for every non-empty device identifier, both USBFormatter and
GRUBInstaller append the partition index behind a "p" separator when the
identifier ends in a digit and append the bare index otherwise. -/
theorem partition_naming_invariant (device : String) (_h : device ≠ "") :
    (endsInDigit device = true →
      formatterPartitions device = (device ++ "p1", device ++ "p2") ∧
      installerPartitions device = (device ++ "p1", device ++ "p2")) ∧
    (endsInDigit device = false →
      formatterPartitions device = (device ++ "1", device ++ "2") ∧
      installerPartitions device = (device ++ "1", device ++ "2")) := by
  constructor <;> intro hd <;>
    simp [formatterPartitions, installerPartitions, hd]

/-- Witness for C9 at the two identifier shapes from the source comments:
an mmcblk-style name ending in a digit and an sd-style name ending in a
letter. -/
theorem partition_naming_invariant_witness :
    formatterPartitions "/dev/mmcblk0" = ("/dev/mmcblk0p1", "/dev/mmcblk0p2") ∧
    installerPartitions "/dev/sdb" = ("/dev/sdb1", "/dev/sdb2") :=
  ⟨((partition_naming_invariant "/dev/mmcblk0" (by decide)).1 (by decide)).1,
   ((partition_naming_invariant "/dev/sdb" (by decide)).2 (by decide)).2⟩

/-- C7 counterexample: declining the wipe confirmation ("no") on an existing
device aborts before any mutating step but terminates the process with exit
status 0, not a non-zero status as claimed. -/
theorem confirm_wipe_decline_exit_zero :
    wipeModePath false ["/dev/sdb"] "/dev/sdb" "no" = ([], Except.error 0) := rfl

/-- C7 amended: whenever the selected device exists and the confirmation
answer is anything other than the affirmative "yes" (after strip and
lower), the run aborts before any mutating step and the process terminates
with exit status zero. -/
theorem confirm_wipe_decline_aborts (devices : List String) (device response : String)
    (hdev : devices.contains device = true)
    (hresp : pyLower (pyStrip response) ≠ "yes") :
    wipeModePath false devices device response = ([], Except.error 0) := by
  have hdev' : device ∈ devices := by simpa using hdev
  simp [wipeModePath, confirm_wipe, hdev', hresp]

/-- Witness for the amended C7 at a concrete declined confirmation. -/
theorem confirm_wipe_decline_aborts_witness :
    wipeModePath false ["/dev/sdb"] "/dev/sdb" " NO " = ([], Except.error 0) :=
  confirm_wipe_decline_aborts ["/dev/sdb"] "/dev/sdb" " NO " (by decide) (by decide)

/-! ## PayloadSynchronizer: GRUBInstaller.scan_existing_isos and sync_isos

Directories are modelled as lists of (file name, size in bytes) pairs; a
real directory listing has pairwise distinct names, which appears as a
Nodup hypothesis where needed.  Python dicts are modelled as association
lists with the insert-or-update-in-place semantics of dict assignment.
The dict values are the sizes divided by 1024 cubed, exactly as the code
computes st_size / (1024 ** 3); they are represented as exact rationals.
-/

/-- The value stored into the ISO dict: st_size / (1024 ** 3). -/
def bytesToGB (n : Nat) : ℚ := (n : ℚ) / (1024 ^ 3)

/-- Python dict assignment d[k] = v on an association list: update the value
in place when the key is present, append otherwise (insertion order is
preserved, as for Python dicts). -/
def pyDictInsert {α : Type} : List (String × α) → String → α → List (String × α)
  | [], k, v => [(k, v)]
  | (k', v') :: rest, k, v =>
    if k' = k then (k', v) :: rest else (k', v') :: pyDictInsert rest k v

/-- Lookup in an association list (Python d.get(k) / the `dst.exists()` and
`dst.stat().st_size` pair for a directory). -/
def dictFind {α : Type} : List (String × α) → String → Option α
  | [], _ => none
  | (k', v) :: rest, k => if k' = k then some v else dictFind rest k

instance pairNameLeDec : DecidableRel (fun a b : String × Nat => a.1 ≤ b.1) :=
  fun a b => inferInstanceAs (Decidable (a.1 ≤ b.1))

/-- The `sorted(....glob("*.iso"))` enumeration: directory entries in
lexicographic name order (names in one directory are distinct, so sorting
the pairs by name models sorting the paths). -/
def sortFiles (l : List (String × Nat)) : List (String × Nat) :=
  List.insertionSort (fun a b => a.1 ≤ b.1) l

/-- Embedding of `GRUBInstaller.scan_existing_isos`: the dict of ISOs already
on the USB, seeded in sorted name order with sizes in GB units.  A missing
/isos folder returns the empty dict, which coincides with an empty listing. -/
def scan_existing_isos (destFiles : List (String × Nat)) : List (String × ℚ) :=
  List.foldl (fun m f => pyDictInsert m f.1 (bytesToGB f.2)) [] (sortFiles destFiles)

/-- State threaded through the copy loop of sync_isos: the ISO dict being
built, the names copied so far (in order), and the destination directory
contents (updated by each copy, since shutil.copy2 makes the destination
size equal to the source size). -/
structure SyncState where
  isos : List (String × ℚ)
  copied : List String
  dest : List (String × Nat)

/-- One iteration of the copy loop of `GRUBInstaller.sync_isos` for source
file `src`: in dry-run mode only record the entry; otherwise copy unless a
destination file of the same name exists with equal size, then record the
entry from the source size. -/
def syncStep (dry : Bool) (st : SyncState) (src : String × Nat) : SyncState :=
  if dry then { st with isos := pyDictInsert st.isos src.1 (bytesToGB src.2) }
  else
    match dictFind st.dest src.1 with
    | some dsz =>
      if dsz = src.2 then { st with isos := pyDictInsert st.isos src.1 (bytesToGB src.2) }
      else
        { isos := pyDictInsert st.isos src.1 (bytesToGB src.2),
          copied := st.copied ++ [src.1],
          dest := pyDictInsert st.dest src.1 src.2 }
    | none =>
        { isos := pyDictInsert st.isos src.1 (bytesToGB src.2),
          copied := st.copied ++ [src.1],
          dest := pyDictInsert st.dest src.1 src.2 }

/-- Embedding of `GRUBInstaller.sync_isos`: seed the dict from the ISOs
already on the USB, return it unchanged when no source directory is given
or the source directory holds no *.iso files, and otherwise run the copy
loop over the source files in sorted name order. -/
def sync_isos (dry : Bool) (isoDir : Option (List (String × Nat)))
    (destFiles : List (String × Nat)) : SyncState :=
  let init : SyncState :=
    { isos := scan_existing_isos destFiles, copied := [], dest := destFiles }
  match isoDir with
  | none => init
  | some srcFiles =>
    let srcs := sortFiles srcFiles
    if srcs.isEmpty then init
    else List.foldl (syncStep dry) init srcs

/-! ## Dict and sync lemmas -/

theorem dictFind_pyDictInsert_self {α : Type} (d : List (String × α)) (k : String) (v : α) :
    dictFind (pyDictInsert d k v) k = some v := by
  induction d with
  | nil => simp [pyDictInsert, dictFind]
  | cons hd tl ih =>
    obtain ⟨k', v'⟩ := hd
    by_cases h : k' = k <;> simp [pyDictInsert, dictFind, h, ih]

theorem dictFind_pyDictInsert_other {α : Type} (d : List (String × α)) (k k' : String) (v : α)
    (h : k' ≠ k) : dictFind (pyDictInsert d k v) k' = dictFind d k' := by
  induction d with
  | nil => simp [pyDictInsert, dictFind, Ne.symm h]
  | cons hd tl ih =>
    obtain ⟨k0, v0⟩ := hd
    by_cases h0 : k0 = k <;> by_cases h1 : k0 = k' <;>
      simp_all [pyDictInsert, dictFind]

theorem syncStep_isos (dry : Bool) (st : SyncState) (src : String × Nat) :
    (syncStep dry st src).isos = pyDictInsert st.isos src.1 (bytesToGB src.2) := by
  cases dry <;> simp only [syncStep] <;> try rfl
  cases dictFind st.dest src.1 with
  | none => rfl
  | some dsz =>
    by_cases h : dsz = src.2 <;> simp [h]

theorem syncStep_copied (st : SyncState) (src : String × Nat) :
    (syncStep false st src).copied =
      if dictFind st.dest src.1 = some src.2 then st.copied else st.copied ++ [src.1] := by
  simp only [syncStep]
  cases hd : dictFind st.dest src.1 with
  | none => simp
  | some dsz =>
    by_cases h : dsz = src.2 <;> simp [h]

theorem syncStep_dest (st : SyncState) (src : String × Nat) :
    (syncStep false st src).dest =
      if dictFind st.dest src.1 = some src.2 then st.dest
      else pyDictInsert st.dest src.1 src.2 := by
  simp only [syncStep]
  cases hd : dictFind st.dest src.1 with
  | none => simp
  | some dsz =>
    by_cases h : dsz = src.2 <;> simp [h]

theorem copied_foldl (l : List (String × Nat)) (st : SyncState) (name : String)
    (hnodup : (l.map Prod.fst).Nodup) :
    (name ∈ (List.foldl (syncStep false) st l).copied ↔
      name ∈ st.copied ∨ ∃ ssz, (name, ssz) ∈ l ∧ dictFind st.dest name ≠ some ssz) := by
  induction l generalizing st with
  | nil => simp
  | cons hd tl ih =>
    obtain ⟨k, sz⟩ := hd
    simp only [List.map_cons, List.nodup_cons] at hnodup
    obtain ⟨hk, htl⟩ := hnodup
    rw [List.foldl_cons, ih _ htl]
    by_cases hne : name = k
    · subst hne
      have hnotl : ∀ ssz, (name, ssz) ∉ tl := by
        intro ssz hmem
        exact hk (List.mem_map.mpr ⟨(name, ssz), hmem, rfl⟩)
      rw [syncStep_copied, syncStep_dest]
      by_cases hfound : dictFind st.dest name = some sz <;>
        simp [hfound, hnotl]
    · have hhd : ∀ ssz : Nat, ((name, ssz) = (k, sz)) ↔ False := by
        intro ssz
        simp [Prod.ext_iff, hne]
      rw [syncStep_copied, syncStep_dest]
      by_cases hfound : dictFind st.dest k = some sz <;>
        simp [hfound, hne, dictFind_pyDictInsert_other st.dest k name sz hne, hhd]

theorem isos_foldl_untouched (dry : Bool) (l : List (String × Nat)) (st : SyncState)
    (name : String) (h : name ∉ l.map Prod.fst) :
    dictFind (List.foldl (syncStep dry) st l).isos name = dictFind st.isos name := by
  induction l generalizing st with
  | nil => rfl
  | cons hd tl ih =>
    simp only [List.map_cons, List.mem_cons, not_or] at h
    rw [List.foldl_cons, ih _ h.2, syncStep_isos,
      dictFind_pyDictInsert_other _ _ _ _ h.1]

theorem isos_foldl_mem (dry : Bool) (l : List (String × Nat)) (st : SyncState)
    (name : String) (ssz : Nat) (hnodup : (l.map Prod.fst).Nodup)
    (hmem : (name, ssz) ∈ l) :
    dictFind (List.foldl (syncStep dry) st l).isos name = some (bytesToGB ssz) := by
  induction l generalizing st with
  | nil => cases hmem
  | cons hd tl ih =>
    obtain ⟨k, sz⟩ := hd
    simp only [List.map_cons, List.nodup_cons] at hnodup
    obtain ⟨hk, htl⟩ := hnodup
    rw [List.foldl_cons]
    rcases List.mem_cons.mp hmem with heq | hmemtl
    · injection heq with h1 h2
      subst h1
      subst h2
      rw [isos_foldl_untouched _ _ _ _ hk, syncStep_isos,
        dictFind_pyDictInsert_self]
    · exact ih _ htl hmemtl

/-- C3: in an executing (non dry-run) sync with a source directory, a source
payload file is copied over the destination iff no destination file of that
name exists or the destination file size differs from the source file size;
a same-size destination file is never re-copied (the code never reads file
content, so content plays no part in the decision). -/
theorem sync_isos_copy_iff (srcFiles destFiles : List (String × Nat)) (name : String)
    (hsrc : (srcFiles.map Prod.fst).Nodup) :
    (name ∈ (sync_isos false (some srcFiles) destFiles).copied ↔
      ∃ ssz, (name, ssz) ∈ srcFiles ∧
        (dictFind destFiles name = none ∨
          ∃ dsz, dictFind destFiles name = some dsz ∧ dsz ≠ ssz)) := by
  have hperm : List.Perm (sortFiles srcFiles) srcFiles :=
    List.perm_insertionSort _ _
  have hnodup : ((sortFiles srcFiles).map Prod.fst).Nodup :=
    (List.Perm.nodup_iff (hperm.map Prod.fst)).mpr hsrc
  have hbridge : ∀ ssz : Nat,
      (¬dictFind destFiles name = some ssz) ↔
        (dictFind destFiles name = none ∨
          ∃ dsz, dictFind destFiles name = some dsz ∧ dsz ≠ ssz) := by
    intro ssz
    cases h : dictFind destFiles name <;> simp [h]
  by_cases hemp : (sortFiles srcFiles).isEmpty = true
  · have hnil : sortFiles srcFiles = [] := by simpa using hemp
    have hsrcnil : srcFiles = [] := by
      have h0 : List.Perm ([] : List (String × Nat)) srcFiles := hnil ▸ hperm
      exact (List.Perm.eq_nil h0.symm)
    subst hsrcnil
    simp [sync_isos, hemp]
  · simp only [sync_isos, hemp, Bool.false_eq_true, if_false]
    rw [copied_foldl _ _ _ hnodup]
    simp only [List.not_mem_nil, false_or]
    exact exists_congr fun ssz =>
      and_congr (hperm.mem_iff) (hbridge ssz)

/-- Witness for C3 at a concrete run: the destination holds a.iso with a
different size, so the source file is copied. -/
theorem sync_isos_copy_iff_witness :
    "a.iso" ∈ (sync_isos false (some [("a.iso", 100)]) [("a.iso", 50)]).copied :=
  (sync_isos_copy_iff [("a.iso", 100)] [("a.iso", 50)] "a.iso" (by simp)).mpr
    ⟨100, by simp, Or.inr ⟨50, rfl, by norm_num⟩⟩

/-- C8 counterexample: syncing a single source file of exactly 1073741824
bytes records the entry value 1 (the size in GiB units, st_size / 1024^3),
which is not the size in bytes. -/
theorem sync_isos_gb_not_bytes :
    dictFind (sync_isos false (some [("a.iso", 1073741824)]) []).isos "a.iso" = some 1 ∧
    (1 : ℚ) ≠ ((1073741824 : Nat) : ℚ) := by
  constructor
  · norm_num [sync_isos, sortFiles, List.insertionSort, List.orderedInsert,
      scan_existing_isos, syncStep, dictFind, pyDictInsert, bytesToGB]
  · norm_num

theorem scanFold_untouched (l : List (String × Nat)) (m : List (String × ℚ)) (name : String)
    (h : name ∉ l.map Prod.fst) :
    dictFind (List.foldl (fun m f => pyDictInsert m f.1 (bytesToGB f.2)) m l) name =
      dictFind m name := by
  induction l generalizing m with
  | nil => rfl
  | cons hd tl ih =>
    simp only [List.map_cons, List.mem_cons, not_or] at h
    rw [List.foldl_cons, ih _ h.2, dictFind_pyDictInsert_other _ _ _ _ h.1]

theorem scanFold_mem (l : List (String × Nat)) (m : List (String × ℚ)) (name : String)
    (dsz : Nat) (hnodup : (l.map Prod.fst).Nodup) (hmem : (name, dsz) ∈ l) :
    dictFind (List.foldl (fun m f => pyDictInsert m f.1 (bytesToGB f.2)) m l) name =
      some (bytesToGB dsz) := by
  induction l generalizing m with
  | nil => cases hmem
  | cons hd tl ih =>
    obtain ⟨k, sz⟩ := hd
    simp only [List.map_cons, List.nodup_cons] at hnodup
    obtain ⟨hk, htl⟩ := hnodup
    rw [List.foldl_cons]
    rcases List.mem_cons.mp hmem with heq | hmemtl
    · injection heq with h1 h2
      subst h1
      subst h2
      rw [scanFold_untouched _ _ _ hk, dictFind_pyDictInsert_self]
    · exact ih _ htl hmemtl

theorem scan_existing_isos_mem (destFiles : List (String × Nat)) (name : String) (dsz : Nat)
    (hdest : (destFiles.map Prod.fst).Nodup) (hmem : (name, dsz) ∈ destFiles) :
    dictFind (scan_existing_isos destFiles) name = some (bytesToGB dsz) := by
  have hperm : List.Perm (sortFiles destFiles) destFiles := List.perm_insertionSort _ _
  simp only [scan_existing_isos]
  exact scanFold_mem _ _ _ _ ((List.Perm.nodup_iff (hperm.map Prod.fst)).mpr hdest)
    (hperm.mem_iff.mpr hmem)

theorem scan_existing_isos_absent (destFiles : List (String × Nat)) (name : String)
    (h : name ∉ destFiles.map Prod.fst) :
    dictFind (scan_existing_isos destFiles) name = none := by
  have hperm : List.Perm ((sortFiles destFiles).map Prod.fst) (destFiles.map Prod.fst) :=
    (List.perm_insertionSort _ _).map _
  simp only [scan_existing_isos]
  rw [scanFold_untouched _ _ _ (fun hm => h (hperm.mem_iff.mp hm))]
  rfl

/-- C8 amended: for every sync run (any dry-run flag, any optional source
directory, any destination store), the returned authoritative entry set
maps each payload file name to that file's size divided by 1024^3 (GiB
units, st_size / (1024 ** 3)), not the size in bytes: a name found in the
source directory gets the source file's size (source size wins over the
destination size), a name found only on the destination keeps the
destination file's size, and a name found in neither place has no entry. -/
theorem sync_isos_records_source_size (dry : Bool)
    (isoDir : Option (List (String × Nat))) (destFiles : List (String × Nat))
    (hdest : (destFiles.map Prod.fst).Nodup) :
    (∀ srcFiles, isoDir = some srcFiles → (srcFiles.map Prod.fst).Nodup →
       ∀ name ssz, (name, ssz) ∈ srcFiles →
         dictFind (sync_isos dry isoDir destFiles).isos name = some (bytesToGB ssz)) ∧
    (∀ name dsz, (name, dsz) ∈ destFiles →
       (∀ srcFiles, isoDir = some srcFiles → name ∉ srcFiles.map Prod.fst) →
       dictFind (sync_isos dry isoDir destFiles).isos name = some (bytesToGB dsz)) ∧
    (∀ name, name ∉ destFiles.map Prod.fst →
       (∀ srcFiles, isoDir = some srcFiles → name ∉ srcFiles.map Prod.fst) →
       dictFind (sync_isos dry isoDir destFiles).isos name = none) := by
  refine ⟨?_, ?_, ?_⟩
  · rintro srcFiles rfl hsrc name ssz hmem
    have hperm : List.Perm (sortFiles srcFiles) srcFiles :=
      List.perm_insertionSort _ _
    have hnodup : ((sortFiles srcFiles).map Prod.fst).Nodup :=
      (List.Perm.nodup_iff (hperm.map Prod.fst)).mpr hsrc
    have hmemsort : (name, ssz) ∈ sortFiles srcFiles := hperm.mem_iff.mpr hmem
    have hne : (sortFiles srcFiles).isEmpty = false := by
      cases h : sortFiles srcFiles with
      | nil => rw [h] at hmemsort; cases hmemsort
      | cons a l => simp [h]
    simp only [sync_isos, hne, Bool.false_eq_true, if_false]
    exact isos_foldl_mem dry _ _ name ssz hnodup hmemsort
  · intro name dsz hmem hnotsrc
    cases isoDir with
    | none =>
      simp only [sync_isos]
      exact scan_existing_isos_mem destFiles name dsz hdest hmem
    | some srcFiles =>
      have hnot : name ∉ srcFiles.map Prod.fst := hnotsrc srcFiles rfl
      have hnotsort : name ∉ (sortFiles srcFiles).map Prod.fst := fun hm =>
        hnot (((List.perm_insertionSort _ _).map Prod.fst).mem_iff.mp hm)
      by_cases hemp : (sortFiles srcFiles).isEmpty = true
      · simp only [sync_isos, hemp, if_true]
        exact scan_existing_isos_mem destFiles name dsz hdest hmem
      · have hemp2 : (sortFiles srcFiles).isEmpty = false := by simpa using hemp
        simp only [sync_isos, hemp2, Bool.false_eq_true, if_false]
        rw [isos_foldl_untouched _ _ _ _ hnotsort]
        exact scan_existing_isos_mem destFiles name dsz hdest hmem
  · intro name hnd hnotsrc
    cases isoDir with
    | none =>
      simp only [sync_isos]
      exact scan_existing_isos_absent destFiles name hnd
    | some srcFiles =>
      have hnot : name ∉ srcFiles.map Prod.fst := hnotsrc srcFiles rfl
      have hnotsort : name ∉ (sortFiles srcFiles).map Prod.fst := fun hm =>
        hnot (((List.perm_insertionSort _ _).map Prod.fst).mem_iff.mp hm)
      by_cases hemp : (sortFiles srcFiles).isEmpty = true
      · simp only [sync_isos, hemp, if_true]
        exact scan_existing_isos_absent destFiles name hnd
      · have hemp2 : (sortFiles srcFiles).isEmpty = false := by simpa using hemp
        simp only [sync_isos, hemp2, Bool.false_eq_true, if_false]
        rw [isos_foldl_untouched _ _ _ _ hnotsort]
        exact scan_existing_isos_absent destFiles name hnd

/-- Witness for the amended C8: a.iso present in both source (100 bytes) and
destination (50 bytes) records the source size, while b.iso present only on
the destination (70 bytes) keeps the destination size. -/
theorem sync_isos_records_source_size_witness :
    dictFind (sync_isos false (some [("a.iso", 100)])
        [("a.iso", 50), ("b.iso", 70)]).isos "a.iso" = some (bytesToGB 100) ∧
    dictFind (sync_isos false (some [("a.iso", 100)])
        [("a.iso", 50), ("b.iso", 70)]).isos "b.iso" = some (bytesToGB 70) :=
  ⟨(sync_isos_records_source_size false (some [("a.iso", 100)])
      [("a.iso", 50), ("b.iso", 70)] (by decide)).1
      [("a.iso", 100)] rfl (by decide) "a.iso" 100 (by decide),
   (sync_isos_records_source_size false (some [("a.iso", 100)])
      [("a.iso", 50), ("b.iso", 70)] (by decide)).2.1
      "b.iso" 70 (by decide)
      (fun s hs => by injection hs with h; subst h; decide)⟩

/-! ## Orchestrator cleanup: GRUBInstaller.unmount_partitions and the
try/finally of main

The run is modelled as a trace of observable actions plus an outcome;
`Except.error cmd` represents an exception escaping from the failing
external command `cmd` (the _run helper re-raises CalledProcessError after
printing it).  The environment records which mount points report mounted
and whether each umount command would succeed.
-/

/-- Observable actions of the cleanup phase. -/
inductive RunAct where
  | logUnmountBanner
  | umountCmd (target : String)
deriving DecidableEq

/-- Environment of `GRUBInstaller.unmount_partitions`: the _is_mounted
answer for the iso and boot mount points, and whether the corresponding
umount commands succeed. -/
structure CleanupEnv where
  isoMounted : Bool
  bootMounted : Bool
  umountIsoOk : Bool
  umountBootOk : Bool

/-- Embedding of `GRUBInstaller.unmount_partitions`: print the banner; in
dry-run mode only echo the mount points; otherwise iterate over
(iso_mount, boot_mount) in that order, running umount for each mounted one
through _run; a failing umount raises (CalledProcessError is re-raised by
_run), stopping the loop. -/
def unmount_partitions (dry : Bool) (env : CleanupEnv) :
    List RunAct × Except String Unit :=
  if dry then ([RunAct.logUnmountBanner], Except.ok ())
  else if env.isoMounted then
    if env.umountIsoOk then
      if env.bootMounted then
        if env.umountBootOk then
          ([RunAct.logUnmountBanner, RunAct.umountCmd "iso", RunAct.umountCmd "boot"],
           Except.ok ())
        else
          ([RunAct.logUnmountBanner, RunAct.umountCmd "iso", RunAct.umountCmd "boot"],
           Except.error "umount boot")
      else ([RunAct.logUnmountBanner, RunAct.umountCmd "iso"], Except.ok ())
    else ([RunAct.logUnmountBanner, RunAct.umountCmd "iso"], Except.error "umount iso")
  else if env.bootMounted then
    if env.umountBootOk then
      ([RunAct.logUnmountBanner, RunAct.umountCmd "boot"], Except.ok ())
    else ([RunAct.logUnmountBanner, RunAct.umountCmd "boot"], Except.error "umount boot")
  else ([RunAct.logUnmountBanner], Except.ok ())

/-- Python try/finally semantics on traced runs: the body runs first, then
the finaliser; an exception raised by the finaliser propagates and replaces
whatever the body produced, and otherwise the body's outcome stands. -/
def tryFinallyRun (body fin : List RunAct × Except String Unit) :
    List RunAct × Except String Unit :=
  (body.1 ++ fin.1,
   match fin.2 with
   | Except.error e => Except.error e
   | Except.ok _ => body.2)

/-- Embedding of the try/finally around the mode branches of `main`: the
body is the wipe or update sequence (abstracted as its trace and outcome),
the finaliser is installer.unmount_partitions(). -/
def orchestratedRun (body : List RunAct × Except String Unit) (dry : Bool)
    (env : CleanupEnv) : List RunAct × Except String Unit :=
  tryFinallyRun body (unmount_partitions dry env)

/-- C6 counterexample: a body failing with "cp" while the iso partition is
mounted and its umount fails ends the run with the umount error, so the
unmount failure is escalated and replaces the original error instead of
being swallowed. -/
theorem unmount_failure_masks_error :
    orchestratedRun ([], Except.error "cp") false ⟨true, true, false, false⟩ =
      ([RunAct.logUnmountBanner, RunAct.umountCmd "iso"], Except.error "umount iso") ∧
    ("umount iso" : String) ≠ "cp" := by
  constructor
  · rfl
  · decide

/-- C6 amended: on every exit path of the orchestrated run, including error
paths, the unmount phase is entered before the run terminates and each
mounted partition is unmounted in turn until one fails; if the unmount
phase succeeds, the original outcome (including any original error) is
preserved, but a failure of the unmount itself raises and replaces the
original outcome. -/
theorem unmount_on_every_exit (body : List RunAct × Except String Unit) (dry : Bool)
    (env : CleanupEnv) :
    RunAct.logUnmountBanner ∈ (orchestratedRun body dry env).1 ∧
    ((unmount_partitions dry env).2 = Except.ok () →
      (orchestratedRun body dry env).2 = body.2) ∧
    (∀ e, (unmount_partitions dry env).2 = Except.error e →
      (orchestratedRun body dry env).2 = Except.error e) := by
  obtain ⟨mi, mb, oi, ob⟩ := env
  refine ⟨?_, ?_, ?_⟩
  · have hmem : RunAct.logUnmountBanner ∈ (unmount_partitions dry ⟨mi, mb, oi, ob⟩).1 := by
      cases dry <;> cases mi <;> cases mb <;> cases oi <;> cases ob <;>
        simp [unmount_partitions]
    exact List.mem_append.mpr (Or.inr hmem)
  · intro h
    simp [orchestratedRun, tryFinallyRun, h]
  · intro e h
    simp [orchestratedRun, tryFinallyRun, h]

/-- Witness for the amended C6: a failing body with nothing mounted keeps
its original error through the cleanup. -/
theorem unmount_on_every_exit_witness :
    (orchestratedRun ([], Except.error "cp") false ⟨false, false, true, true⟩).2 =
      Except.error "cp" :=
  (unmount_on_every_exit ([], Except.error "cp") false ⟨false, false, true, true⟩).2.1 rfl

/-! ## MenuGenerator: GRUBInstaller.generate_grub_config

The generated grub.cfg is a pure function of the ISO dict.  The fixed
preamble, the per-family menu entry bodies and the trailing utilities block
are transcribed verbatim from the source (literal braces are written with
hex escapes).  Family classification happens on the lower-cased file name
through the fixed first-match rule order of the source.
-/

/-- The fixed preamble of the generated configuration (the initial cfg
string of generate_grub_config). -/
def grubPreamble : String :=
  "# GRUB2 Multiboot Configuration\n" ++
  "# Auto-generated\n" ++
  "\n" ++
  "set default=0\n" ++
  "set timeout=10\n" ++
  "set pager=1\n" ++
  "\n" ++
  "insmod part_msdos\n" ++
  "insmod part_gpt\n" ++
  "insmod ext2\n" ++
  "insmod iso9660\n" ++
  "insmod ntfs\n" ++
  "insmod loopback\n" ++
  "\n" ++
  "# Quietly find partitions using hints to avoid \"device not found\" noise\n" ++
  "search --no-floppy --label BOOT --set=bootpart --hint ($root)\n" ++
  "search --no-floppy --label ISOs --set=isopart --hint ($root)\n" ++
  "\n" ++
  "# Fallback if label search fails\n" ++
  "if [ -z \"$isopart\" ]; then\n" ++
  "    set isopart=($root)\n" ++
  "fi\n" ++
  "\n" ++
  "# Get UUID of ISO partition for Linux kernels\n" ++
  "probe -u $isopart --set=isouuid\n" ++
  "\n" ++
  "# wimboot (if installed)\n" ++
  "if [ -e ($bootpart)/grub/wimboot ]; then\n" ++
  "  set wimboot=($bootpart)/grub/wimboot\n" ++
  "fi\n" ++
  "\n" ++
  "### ISO Entries ###\n"

/-- The fixed trailing utilities block appended after all ISO entries. -/
def grubUtilities : String :=
  "\n" ++
  "### Utilities ###\n" ++
  "if [ \"$grub_platform\" = \"efi\" ]; then\n" ++
  "    menuentry \"UEFI Firmware Settings\" \x7b fwsetup \x7d\n" ++
  "fi\n" ++
  "menuentry \"Reboot\" \x7b reboot \x7d\n" ++
  "menuentry \"Power Off\" \x7b halt \x7d\n"

/-- The path of the ISO on the payload partition, f"/isos/\x7biso_name\x7d". -/
def isofileOf (iso_name : String) : String := "/isos/" ++ iso_name

/-- The menu label: iso_name.replace(".iso", "").replace("_", " ").strip(). -/
def labelOf (iso_name : String) : String :=
  pyStrip (pyReplace (pyReplace iso_name ".iso" "") "_" " ")

/-- The _menuentry helper: wrap a body in a named menuentry block. -/
def menuentryBlock (label body : String) : String :=
  "\nmenuentry \"" ++ label ++ "\" \x7b\n" ++ body ++ "\n\x7d\n"

/-- Body template for Windows / WinPE / Hirens / Gandalf images. -/
def winBody (isofile : String) : String :=
  "  set isofile=\"" ++ isofile ++ "\"\n" ++
  "  loopback --delete loop\n" ++
  "  loopback loop ($isopart)$isofile\n" ++
  "  \n" ++
  "  if [ -z \"$wimboot\" ]; then\n" ++
  "    echo \"wimboot not found at ($bootpart)/grub/wimboot\"\n" ++
  "    echo \"Install it or rerun with --download-wimboot\"\n" ++
  "    sleep 5\n" ++
  "  else\n" ++
  "    # SHOTGUN MAPPING: Map every possible case/name to ensure wimboot finds it.\n" ++
  "    linux16 $wimboot\n" ++
  "    initrd16 \\\n" ++
  "      newc:bootmgr:(loop)/bootmgr \\\n" ++
  "      newc:bootmgr:(loop)/BOOTMGR \\\n" ++
  "      newc:bootmgr.exe:(loop)/bootmgr.exe \\\n" ++
  "      newc:bootmgr.exe:(loop)/BOOTMGR.EXE \\\n" ++
  "      newc:bcd:(loop)/boot/bcd \\\n" ++
  "      newc:bcd:(loop)/BOOT/BCD \\\n" ++
  "      newc:boot.sdi:(loop)/boot/boot.sdi \\\n" ++
  "      newc:boot.sdi:(loop)/BOOT/BOOT.SDI \\\n" ++
  "      newc:boot.wim:(loop)/sources/boot.wim \\\n" ++
  "      newc:boot.wim:(loop)/SOURCES/BOOT.WIM\n" ++
  "  fi\n"

/-- Body template for NixOS images (chainload the internal loopback.cfg). -/
def nixosBody (isofile : String) : String :=
  "  set isofile=\"" ++ isofile ++ "\"\n" ++
  "  loopback --delete loop\n" ++
  "  loopback loop ($isopart)$isofile\n" ++
  "  \n" ++
  "  # NixOS ISOs ship with a specialized GRUB config for loopback booting.\n" ++
  "  # We just chainload it.\n" ++
  "  if [ -e (loop)/boot/grub/loopback.cfg ]; then\n" ++
  "      configfile (loop)/boot/grub/loopback.cfg\n" ++
  "  else\n" ++
  "      echo \"No loopback.cfg found in NixOS ISO.\"\n" ++
  "      sleep 5\n" ++
  "  fi\n"

/-- Body template for the Debian installer (netinst/DVD) images. -/
def debianNetinstBody (isofile : String) : String :=
  "  set isofile=\"" ++ isofile ++ "\"\n" ++
  "  loopback --delete loop\n" ++
  "  loopback loop ($isopart)$isofile\n" ++
  "  linux (loop)/install.amd/vmlinuz vga=788 --- quiet\n" ++
  "  initrd (loop)/install.amd/initrd.gz\n"

/-- Body template for Tails images. -/
def tailsBody (isofile : String) : String :=
  "  set isofile=\"" ++ isofile ++ "\"\n" ++
  "  loopback --delete loop\n" ++
  "  loopback loop ($isopart)$isofile\n" ++
  "  linux (loop)/live/vmlinuz boot=live config findiso=$isofile live-media=removable apparmor=1 security=apparmor nopersistence noprompt timezone=Etc/UTC block.events_dfl_poll_msecs=1000 splash noautologin module=Tails\n" ++
  "  initrd (loop)/live/initrd.img\n"

/-- Body template for SystemRescue images. -/
def sysrescueBody (isofile : String) : String :=
  "  set isofile=\"" ++ isofile ++ "\"\n" ++
  "  loopback --delete loop\n" ++
  "  loopback loop ($isopart)$isofile\n" ++
  "  \n" ++
  "  if [ -e (loop)/sysresccd/boot/x86_64/vmlinuz ]; then\n" ++
  "      if [ -n \"$isouuid\" ]; then\n" ++
  "          set imgdev=\"/dev/disk/by-uuid/$isouuid\"\n" ++
  "      else\n" ++
  "          set imgdev=\"$isopart\" \n" ++
  "      fi\n" ++
  "      linux (loop)/sysresccd/boot/x86_64/vmlinuz archisobasedir=sysresccd archisolabel=RESCUE* img_dev=$imgdev img_loop=$isofile earlymodules=loop\n" ++
  "      initrd (loop)/sysresccd/boot/x86_64/sysresccd.img\n" ++
  "  else\n" ++
  "      linux (loop)/isolinux/rescue64 isoloop=$isofile\n" ++
  "      initrd (loop)/isolinux/initram.igz\n" ++
  "  fi\n"

/-- Body template for the Debian-live family (Clonezilla, GParted, Kali,
Ubuntu, Pop, Mint); `extra` carries the Clonezilla-only boot arguments. -/
def debianLiveBody (isofile extra : String) : String :=
  "  set isofile=\"" ++ isofile ++ "\"\n" ++
  "  loopback --delete loop\n" ++
  "  loopback loop ($isopart)$isofile\n" ++
  "  \n" ++
  "  if [ -e (loop)/casper/vmlinuz ]; then\n" ++
  "      linux (loop)/casper/vmlinuz boot=casper iso-scan/filename=$isofile noeject noprompt splash --\n" ++
  "      initrd (loop)/casper/initrd\n" ++
  "  elif [ -e (loop)/live/vmlinuz ]; then\n" ++
  "      linux (loop)/live/vmlinuz boot=live findiso=$isofile " ++ extra ++ "\n" ++
  "      initrd (loop)/live/initrd.img\n" ++
  "  else\n" ++
  "      echo \"Could not find kernel in /casper or /live\"\n" ++
  "      sleep 5\n" ++
  "  fi\n"

/-- Body template for the Arch family. -/
def archBody (isofile : String) : String :=
  "  set isofile=\"" ++ isofile ++ "\"\n" ++
  "  loopback --delete loop\n" ++
  "  loopback loop ($isopart)$isofile\n" ++
  "  probe -u ($isopart) --set=isouuid\n" ++
  "  linux (loop)/arch/boot/x86_64/vmlinuz-linux archisobasedir=arch img_dev=/dev/disk/by-uuid/$isouuid img_loop=$isofile earlymodules=loop\n" ++
  "  initrd (loop)/arch/boot/x86_64/initramfs-linux.img\n"

/-- Body template for the Fedora/RHEL family. -/
def fedoraBody (isofile : String) : String :=
  "  set isofile=\"" ++ isofile ++ "\"\n" ++
  "  loopback --delete loop\n" ++
  "  loopback loop ($isopart)$isofile\n" ++
  "  linux (loop)/images/pxeboot/vmlinuz iso-scan/filename=$isofile rd.live.image quiet\n" ++
  "  initrd (loop)/images/pxeboot/initrd.img\n"

/-- Body template of the generic fallback. -/
def genericBody (isofile : String) : String :=
  "  set isofile=\"" ++ isofile ++ "\"\n" ++
  "  loopback --delete loop\n" ++
  "  loopback loop ($isopart)$isofile\n" ++
  "  linux (loop)/boot/vmlinuz iso-scan/filename=$isofile quiet\n" ++
  "  initrd (loop)/boot/initrd\n"

/-- The any(x in low for x in terms) membership tests of the classifier. -/
def anyTerm (low : String) (terms : List String) : Bool :=
  terms.any fun t => strContains low t

def winTerms : List String :=
  ["hiren", "hbcd", "gandalf", "win10", "win11", "windows", "winpe", "pe_x64"]

def debianLiveTerms : List String :=
  ["clonezilla", "gparted", "debian", "kali", "ubuntu", "pop", "mint"]

def archTerms : List String :=
  ["arch", "manjaro", "endeavouros", "endeavour"]

def fedoraTerms : List String :=
  ["fedora", "rhel", "centos", "rocky", "alma"]

/-- The terms whose presence in any lower-cased file name triggers the
wimboot provisioning check at the top of generate_grub_config. -/
def wimTriggerTerms : List String :=
  ["win", "hiren", "hbcd", "pe", "gandalf"]

/-- One menu entry: the body of the per-ISO loop of generate_grub_config,
a first-match-wins cascade over the lower-cased file name. -/
def isoMenuEntry (iso_name : String) : String :=
  let label := labelOf iso_name
  let isofile := isofileOf iso_name
  let low := pyLower iso_name
  if anyTerm low winTerms then
    menuentryBlock (label ++ " (Windows/PE)") (winBody isofile)
  else if strContains low "nixos" then
    menuentryBlock label (nixosBody isofile)
  else if strContains low "debian" && strContains low "netinst" then
    menuentryBlock label (debianNetinstBody isofile)
  else if strContains low "tails" then
    menuentryBlock label (tailsBody isofile)
  else if strContains low "systemrescue" || strContains low "sysresccd" then
    menuentryBlock label (sysrescueBody isofile)
  else if anyTerm low debianLiveTerms then
    menuentryBlock label
      (debianLiveBody isofile
        (if strContains low "clonezilla" then "union=overlay components quiet noswap" else ""))
  else if anyTerm low archTerms then
    menuentryBlock label (archBody isofile)
  else if anyTerm low fedoraTerms then
    menuentryBlock label (fedoraBody isofile)
  else
    menuentryBlock label (genericBody isofile)

/-- The has_windows test at the top of generate_grub_config: some file name
contains one of the trigger terms in lower case (such a name is nonempty,
so the truthiness test of the Python any() generator is implied). -/
def has_windows (isos : List (String × ℚ)) : Bool :=
  (isos.map Prod.fst).any fun x => wimTriggerTerms.any fun term => strContains (pyLower x) term

instance strLeDec : DecidableRel (fun a b : String => a ≤ b) :=
  fun a b => inferInstanceAs (Decidable (a ≤ b))

/-- sorted(isos.keys()): the file names in lexicographic order. -/
def sortedKeys (isos : List (String × ℚ)) : List String :=
  List.insertionSort (fun a b : String => a ≤ b) (isos.map Prod.fst)

/-- Embedding of `GRUBInstaller.generate_grub_config` as a pure function of
the ISO dict: the preamble, then one menu entry per file name in sorted
order, then the utilities block.  (The wimboot provisioning side effect is
modelled separately by `has_windows`.) -/
def generate_grub_config (isos : List (String × ℚ)) : String :=
  List.foldl (fun cfg name => cfg ++ isoMenuEntry name) grubPreamble (sortedKeys isos) ++
    grubUtilities

/-- Concatenation of the menu blocks of a list of names, in order. -/
def concatBlocks : List String → String
  | [] => ""
  | n :: rest => isoMenuEntry n ++ concatBlocks rest

/-- The ordered classifier rule table: rule index to predicate over the
lower-cased name (index 8 is the always-matching generic fallback). -/
def ruleMatch (idx : Nat) (low : String) : Bool :=
  match idx with
  | 0 => anyTerm low winTerms
  | 1 => strContains low "nixos"
  | 2 => strContains low "debian" && strContains low "netinst"
  | 3 => strContains low "tails"
  | 4 => strContains low "systemrescue" || strContains low "sysresccd"
  | 5 => anyTerm low debianLiveTerms
  | 6 => anyTerm low archTerms
  | 7 => anyTerm low fedoraTerms
  | _ => true

/-- The rule table's template side: rule index to rendered menu entry. -/
def famTemplate (idx : Nat) (iso_name : String) : String :=
  let label := labelOf iso_name
  let isofile := isofileOf iso_name
  let low := pyLower iso_name
  match idx with
  | 0 => menuentryBlock (label ++ " (Windows/PE)") (winBody isofile)
  | 1 => menuentryBlock label (nixosBody isofile)
  | 2 => menuentryBlock label (debianNetinstBody isofile)
  | 3 => menuentryBlock label (tailsBody isofile)
  | 4 => menuentryBlock label (sysrescueBody isofile)
  | 5 => menuentryBlock label
      (debianLiveBody isofile
        (if strContains low "clonezilla" then "union=overlay components quiet noswap" else ""))
  | 6 => menuentryBlock label (archBody isofile)
  | 7 => menuentryBlock label (fedoraBody isofile)
  | _ => menuentryBlock label (genericBody isofile)

/-- Index of the first matching rule for a lower-cased name (8, the generic
fallback, always matches). -/
def firstRule (low : String) : Nat :=
  if ruleMatch 0 low then 0
  else if ruleMatch 1 low then 1
  else if ruleMatch 2 low then 2
  else if ruleMatch 3 low then 3
  else if ruleMatch 4 low then 4
  else if ruleMatch 5 low then 5
  else if ruleMatch 6 low then 6
  else if ruleMatch 7 low then 7
  else 8

theorem foldl_append_concatBlocks (l : List String) (init : String) :
    List.foldl (fun cfg name => cfg ++ isoMenuEntry name) init l =
      init ++ concatBlocks l := by
  induction l generalizing init with
  | nil => simp [concatBlocks]
  | cons n rest ih =>
    simp [List.foldl_cons, ih, concatBlocks, String.append_assoc]

/-- C4: the generated document is the fixed preamble, then exactly one menu
block per entry with entries in lexicographic (sorted) order of file name,
then the fixed trailing utilities block; the empty entry set produces the
preamble and the utilities block with zero ISO blocks; and two entry sets
with the same names (in any insertion order) generate byte-identical
documents. -/
theorem generate_grub_config_shape :
    (∀ isos : List (String × ℚ),
       generate_grub_config isos =
         grubPreamble ++ concatBlocks (sortedKeys isos) ++ grubUtilities) ∧
    (∀ isos : List (String × ℚ),
       List.Sorted (fun a b : String => a ≤ b) (sortedKeys isos) ∧
       List.Perm (sortedKeys isos) (isos.map Prod.fst)) ∧
    (generate_grub_config [] = grubPreamble ++ grubUtilities) ∧
    (∀ m1 m2 : List (String × ℚ), List.Perm (m1.map Prod.fst) (m2.map Prod.fst) →
       generate_grub_config m1 = generate_grub_config m2) := by
  have hshape : ∀ isos : List (String × ℚ),
      generate_grub_config isos =
        grubPreamble ++ concatBlocks (sortedKeys isos) ++ grubUtilities := by
    intro isos
    rw [generate_grub_config, foldl_append_concatBlocks]
  refine ⟨hshape, ?_, ?_, ?_⟩
  · intro isos
    exact ⟨List.sorted_insertionSort _ _, List.perm_insertionSort _ _⟩
  · rw [hshape]
    simp [sortedKeys, concatBlocks, List.insertionSort]
  · intro m1 m2 hperm
    have hkeys : sortedKeys m1 = sortedKeys m2 := by
      refine List.eq_of_perm_of_sorted ?_
        (List.sorted_insertionSort _ _) (List.sorted_insertionSort _ _)
      exact (List.perm_insertionSort _ _).trans
        (hperm.trans (List.perm_insertionSort _ _).symm)
    rw [hshape, hshape, hkeys]

/-- Witness for C4: two insertion orders of the same two entries generate
the same document. -/
theorem generate_grub_config_shape_witness :
    generate_grub_config [("b.iso", 1), ("a.iso", 2)] =
      generate_grub_config [("a.iso", 2), ("b.iso", 1)] :=
  generate_grub_config_shape.2.2.2 [("b.iso", 1), ("a.iso", 2)] [("a.iso", 2), ("b.iso", 1)]
    (by simpa using List.Perm.swap "a.iso" "b.iso" [])

set_option maxHeartbeats 1600000 in
/-- C5: the dispatch template applied to a payload file name is that of the
first matching rule in the fixed order (Windows/PE, NixOS, Debian netinst,
Tails, SystemRescue, Debian-live family, Arch family, Fedora/RHEL family,
generic fallback); firstRule really is the least matching index; and in
particular a name matching the Arch-family rule and no earlier rule is
rendered with the Arch template, which differs from the generic fallback
rendering of the same name. -/
theorem isoMenuEntry_first_match :
    (∀ iso_name : String,
       isoMenuEntry iso_name = famTemplate (firstRule (pyLower iso_name)) iso_name) ∧
    (∀ low : String,
       ruleMatch (firstRule low) low = true ∧
       ∀ i, i < firstRule low → ruleMatch i low = false) ∧
    (∀ iso_name : String,
       ruleMatch 6 (pyLower iso_name) = true →
       (∀ i, i < 6 → ruleMatch i (pyLower iso_name) = false) →
       isoMenuEntry iso_name = famTemplate 6 iso_name ∧
       famTemplate 6 iso_name ≠ famTemplate 8 iso_name) := by
  refine ⟨?_, ?_, ?_⟩
  · intro iso_name
    simp only [isoMenuEntry, firstRule, ruleMatch]
    split_ifs <;> simp_all [famTemplate]
  · intro low
    by_cases g0 : ruleMatch 0 low = true
    · have hf : firstRule low = 0 := by simp [firstRule, g0]
      rw [hf]
      exact ⟨g0, fun i hi => absurd hi (by omega)⟩
    by_cases g1 : ruleMatch 1 low = true
    · have hf : firstRule low = 1 := by simp [firstRule, g0, g1]
      rw [hf]
      refine ⟨g1, fun i hi => ?_⟩
      interval_cases i
      simp_all
    by_cases g2 : ruleMatch 2 low = true
    · have hf : firstRule low = 2 := by simp [firstRule, g0, g1, g2]
      rw [hf]
      refine ⟨g2, fun i hi => ?_⟩
      interval_cases i <;> simp_all
    by_cases g3 : ruleMatch 3 low = true
    · have hf : firstRule low = 3 := by simp [firstRule, g0, g1, g2, g3]
      rw [hf]
      refine ⟨g3, fun i hi => ?_⟩
      interval_cases i <;> simp_all
    by_cases g4 : ruleMatch 4 low = true
    · have hf : firstRule low = 4 := by simp [firstRule, g0, g1, g2, g3, g4]
      rw [hf]
      refine ⟨g4, fun i hi => ?_⟩
      interval_cases i <;> simp_all
    by_cases g5 : ruleMatch 5 low = true
    · have hf : firstRule low = 5 := by simp [firstRule, g0, g1, g2, g3, g4, g5]
      rw [hf]
      refine ⟨g5, fun i hi => ?_⟩
      interval_cases i <;> simp_all
    by_cases g6 : ruleMatch 6 low = true
    · have hf : firstRule low = 6 := by simp [firstRule, g0, g1, g2, g3, g4, g5, g6]
      rw [hf]
      refine ⟨g6, fun i hi => ?_⟩
      interval_cases i <;> simp_all
    by_cases g7 : ruleMatch 7 low = true
    · have hf : firstRule low = 7 := by simp [firstRule, g0, g1, g2, g3, g4, g5, g6, g7]
      rw [hf]
      refine ⟨g7, fun i hi => ?_⟩
      interval_cases i <;> simp_all
    · have hf : firstRule low = 8 := by simp [firstRule, g0, g1, g2, g3, g4, g5, g6, g7]
      rw [hf]
      refine ⟨rfl, fun i hi => ?_⟩
      interval_cases i <;> simp_all
  · intro iso_name h6 hlt
    have e0 : ruleMatch 0 (pyLower iso_name) = false := hlt 0 (by omega)
    have e1 : ruleMatch 1 (pyLower iso_name) = false := hlt 1 (by omega)
    have e2 : ruleMatch 2 (pyLower iso_name) = false := hlt 2 (by omega)
    have e3 : ruleMatch 3 (pyLower iso_name) = false := hlt 3 (by omega)
    have e4 : ruleMatch 4 (pyLower iso_name) = false := hlt 4 (by omega)
    have e5 : ruleMatch 5 (pyLower iso_name) = false := hlt 5 (by omega)
    constructor
    · have k0 : anyTerm (pyLower iso_name) winTerms = false := by
        simpa [ruleMatch] using e0
      have k1 : strContains (pyLower iso_name) "nixos" = false := by
        simpa [ruleMatch] using e1
      have k2 : (strContains (pyLower iso_name) "debian" &&
          strContains (pyLower iso_name) "netinst") = false := by
        simpa [ruleMatch] using e2
      have k3 : strContains (pyLower iso_name) "tails" = false := by
        simpa [ruleMatch] using e3
      have k4 : (strContains (pyLower iso_name) "systemrescue" ||
          strContains (pyLower iso_name) "sysresccd") = false := by
        simpa [ruleMatch] using e4
      have k5 : anyTerm (pyLower iso_name) debianLiveTerms = false := by
        simpa [ruleMatch] using e5
      have k6 : anyTerm (pyLower iso_name) archTerms = true := by
        simpa [ruleMatch] using h6
      simp [isoMenuEntry, famTemplate, k0, k1, k2, k3, k4, k5, k6]
    · intro heq
      have hdata := congrArg String.data heq
      simp only [famTemplate, menuentryBlock, archBody, genericBody, isofileOf,
        String.data_append, List.append_assoc, List.append_cancel_left_eq] at hdata
      exact absurd hdata (by decide)

/-- Witness for C5 at the Arch-family name from the spec scenario: it is
rendered with the Arch template. -/
theorem isoMenuEntry_first_match_witness :
    isoMenuEntry "archlinux-2024.iso" = famTemplate 6 "archlinux-2024.iso" :=
  (isoMenuEntry_first_match.2.2 "archlinux-2024.iso" (by decide) (by decide)).1

theorem strContainsAux_iff (pat l : List Char) :
    strContainsAux pat l = true ↔ pat <:+: l := by
  induction l with
  | nil => simp [strContainsAux, List.isEmpty_iff]
  | cons c rest ih =>
    rw [strContainsAux, Bool.or_eq_true, ih, List.infix_cons_iff,
      List.isPrefixOf_iff_prefix]

theorem strContains_iff (s sub : String) :
    strContains s sub = true ↔ sub.data <:+: s.data := by
  rw [strContains, strContainsAux_iff]

theorem strContains_mono (s a b : String) (hab : a.data <:+: b.data)
    (h : strContains s b = true) : strContains s a = true := by
  rw [strContains_iff] at h ⊢
  exact hab.trans h

set_option maxRecDepth 16000 in
/-- C10: the wimboot provisioning check fires whenever any file name
contains one of win, hiren, hbcd, 'pe' or gandalf in lower case, which is a
strict superset of the names classified into the Windows/PE family: every
name matching the Windows/PE classification rule triggers the check, while
opensuse.iso (whose name contains 'pe' inside an unrelated word) triggers
the check without matching the Windows/PE rule and is rendered with the
generic fallback template. -/
theorem has_windows_trigger_superset :
    (∀ (isos : List (String × ℚ)) (name : String),
       name ∈ isos.map Prod.fst → ruleMatch 0 (pyLower name) = true →
       has_windows isos = true) ∧
    has_windows [("opensuse.iso", 1)] = true ∧
    ruleMatch 0 (pyLower "opensuse.iso") = false ∧
    isoMenuEntry "opensuse.iso" = famTemplate 8 "opensuse.iso" := by
  refine ⟨?_, by decide, by decide, by decide⟩
  intro isos name hmem h0
  simp only [ruleMatch, anyTerm, winTerms, List.any_cons, List.any_nil,
    Bool.or_eq_true, Bool.or_false] at h0
  have htrig : ∃ term ∈ wimTriggerTerms, strContains (pyLower name) term = true := by
    rcases h0 with h | h | h | h | h | h | h | h
    · exact ⟨"hiren", by simp [wimTriggerTerms], h⟩
    · exact ⟨"hbcd", by simp [wimTriggerTerms], h⟩
    · exact ⟨"gandalf", by simp [wimTriggerTerms], h⟩
    · exact ⟨"win", by simp [wimTriggerTerms],
        strContains_mono _ "win" "win10" (by decide) h⟩
    · exact ⟨"win", by simp [wimTriggerTerms],
        strContains_mono _ "win" "win11" (by decide) h⟩
    · exact ⟨"win", by simp [wimTriggerTerms],
        strContains_mono _ "win" "windows" (by decide) h⟩
    · exact ⟨"win", by simp [wimTriggerTerms],
        strContains_mono _ "win" "winpe" (by decide) h⟩
    · exact ⟨"pe", by simp [wimTriggerTerms],
        strContains_mono _ "pe" "pe_x64" (by decide) h⟩
  rw [has_windows, List.any_eq_true]
  obtain ⟨term, hterm, hc⟩ := htrig
  exact ⟨name, hmem, List.any_eq_true.mpr ⟨term, hterm, hc⟩⟩

/-- Witness for C10 at a Windows-classified name: win11.iso triggers the
wimboot provisioning check. -/
theorem has_windows_trigger_superset_witness :
    has_windows [("win11.iso", 5)] = true :=
  has_windows_trigger_superset.1 [("win11.iso", 5)] "win11.iso" (by decide) (by decide)
